import Mathlib

/-!
Verification of the indicator pipeline and rule-based signal generator of
src/main.py (ashare-llm-analyst).

Shallow embedding conventions:
- A pandas DataFrame is a row count, an index and an ordered association
  list of named columns; the structure invariants record the pandas facts
  that every column and the index have exactly the frame's row length.
- Numeric cells are `Option ℚ`: `none` models IEEE NaN (every Python
  comparison against NaN is False, which the cell comparison functions
  below reproduce); `some q` models an ordinary float, compared exactly.
- Python exceptions are modelled by `Except PyErr`.  The error message
  text attached to an exception is modelled as a readable tag (for
  example "KeyError: K"), not CPython's exact str(e).
- Column accesses are sequenced exactly as the Python source evaluates
  them, including the short-circuit of `and` and of chained comparisons,
  so that which access raises first is preserved.
-/

abbrev Cell := Option ℚ

/-- Python `a > b` on float cells; any comparison involving NaN is False. -/
def cgt (a b : Cell) : Bool :=
  match a, b with
  | some x, some y => decide (y < x)
  | _, _ => false

/-- Python `a < b` on float cells. -/
def clt (a b : Cell) : Bool :=
  match a, b with
  | some x, some y => decide (x < y)
  | _, _ => false

/-- Python `a >= b` on float cells. -/
def cge (a b : Cell) : Bool :=
  match a, b with
  | some x, some y => decide (y ≤ x)
  | _, _ => false

/-- Python `a <= b` on float cells. -/
def cle (a b : Cell) : Bool :=
  match a, b with
  | some x, some y => decide (x ≤ y)
  | _, _ => false

/-- The Python exceptions that the modelled code can raise. -/
inductive PyErr where
  | keyError (col : String)
  | indexError (col : String)
  | valueError (what : String)
deriving DecidableEq, Repr

/-- Readable rendering of an exception, standing in for Python str(e). -/
def pyMsg : PyErr → String
  | .keyError c => "KeyError: " ++ c
  | .indexError c => "IndexError: " ++ c
  | .valueError w => "ValueError: " ++ w

/-- A pandas DataFrame: row count, index, named columns.  The invariants
record that pandas keeps every column and the index at exactly the
frame's row count. -/
structure DataFrame where
  nrows : Nat
  index : List Nat
  cols : List (String × List Cell)
  hidx : index.length = nrows
  hlen : ∀ p ∈ cols, (p.2).length = nrows

/-- Python df[c].iloc[-k] (k = 1 or 2 in the source): raises KeyError if
the column is absent, IndexError if the column is shorter than k. -/
def iloc (df : DataFrame) (c : String) (k : Nat) : Except PyErr Cell :=
  match df.cols.lookup c with
  | none => .error (.keyError c)
  | some l =>
    if h : 1 ≤ k ∧ k ≤ l.length then
      .ok (l.get ⟨l.length - k, by omega⟩)
    else
      .error (.indexError c)

/-- Column contents, defaulting to the empty column when absent (total
companion of column lookup used in theorem statements). -/
def colD (df : DataFrame) (c : String) : List Cell :=
  (df.cols.lookup c).getD []

/-- Total companion of `iloc df c k`, defaulting to NaN. -/
def cellAt (df : DataFrame) (c : String) (k : Nat) : Cell :=
  ((colD df c).get? ((colD df c).length - k)).getD none

/-- Value at the last row of column c. -/
def lastCell (df : DataFrame) (c : String) : Cell := cellAt df c 1

/-- Value at the second-to-last row of column c. -/
def prevCell (df : DataFrame) (c : String) : Cell := cellAt df c 2

/-! Signal rules of generate_trading_signals (src/main.py lines 26-66).
Each rule has an effectful version (suffix E) that performs the column
accesses in exactly the Python evaluation order, and a pure version
(suffix S) giving its appended messages when no access raises. -/

/-- MACD rule, lines 27-30.  The chained comparison
`m1 > 0 >= m2` evaluates m1, then 0 >= m2 only if m1 > 0. -/
def macdRuleE (df : DataFrame) : Except PyErr (List String) := do
  let m1 ← iloc df "MACD" 1
  let c1 ←
    if cgt m1 (some 0) then do
      let m2 ← iloc df "MACD" 2
      pure (cge (some 0) m2)
    else pure false
  if c1 then
    pure ["MACD金叉形成，可能上涨"]
  else do
    let m1b ← iloc df "MACD" 1
    let c2 ←
      if clt m1b (some 0) then do
        let m2 ← iloc df "MACD" 2
        pure (cle (some 0) m2)
      else pure false
    if c2 then
      pure ["MACD死叉形成，可能下跌"]
    else
      pure []

/-- Pure MACD rule. -/
def macdRuleS (df : DataFrame) : List String :=
  if cgt (lastCell df "MACD") (some 0) && cge (some 0) (prevCell df "MACD") then
    ["MACD金叉形成，可能上涨"]
  else if clt (lastCell df "MACD") (some 0) && cle (some 0) (prevCell df "MACD") then
    ["MACD死叉形成，可能下跌"]
  else []

/-- KDJ rule, lines 33-36; `and` short-circuits. -/
def kdjRuleE (df : DataFrame) : Except PyErr (List String) := do
  let k1 ← iloc df "K" 1
  let c1 ←
    if clt k1 (some 20) then do
      let d1 ← iloc df "D" 1
      pure (clt d1 (some 20))
    else pure false
  if c1 then
    pure ["KDJ超卖，可能反弹"]
  else do
    let k1b ← iloc df "K" 1
    let c2 ←
      if cgt k1b (some 80) then do
        let d1 ← iloc df "D" 1
        pure (cgt d1 (some 80))
      else pure false
    if c2 then
      pure ["KDJ超买，注意回调"]
    else
      pure []

/-- Pure KDJ rule. -/
def kdjRuleS (df : DataFrame) : List String :=
  if clt (lastCell df "K") (some 20) && clt (lastCell df "D") (some 20) then
    ["KDJ超卖，可能反弹"]
  else if cgt (lastCell df "K") (some 80) && cgt (lastCell df "D") (some 80) then
    ["KDJ超买，注意回调"]
  else []

/-- RSI rule, lines 39-42. -/
def rsiRuleE (df : DataFrame) : Except PyErr (List String) := do
  let r1 ← iloc df "RSI" 1
  if clt r1 (some 20) then
    pure ["RSI超卖，可能反弹"]
  else do
    let r1b ← iloc df "RSI" 1
    if cgt r1b (some 80) then
      pure ["RSI超买，注意回调"]
    else
      pure []

/-- Pure RSI rule. -/
def rsiRuleS (df : DataFrame) : List String :=
  if clt (lastCell df "RSI") (some 20) then
    ["RSI超卖，可能反弹"]
  else if cgt (lastCell df "RSI") (some 80) then
    ["RSI超买，注意回调"]
  else []

/-- Bollinger rule, lines 45-48. -/
def bollRuleE (df : DataFrame) : Except PyErr (List String) := do
  let cl ← iloc df "close" 1
  let up ← iloc df "BOLL_UP" 1
  if cgt cl up then
    pure ["股价突破布林上轨，超买状态"]
  else do
    let clb ← iloc df "close" 1
    let lo ← iloc df "BOLL_LOW" 1
    if clt clb lo then
      pure ["股价跌破布林下轨，超卖状态"]
    else
      pure []

/-- Pure Bollinger rule. -/
def bollRuleS (df : DataFrame) : List String :=
  if cgt (lastCell df "close") (lastCell df "BOLL_UP") then
    ["股价突破布林上轨，超买状态"]
  else if clt (lastCell df "close") (lastCell df "BOLL_LOW") then
    ["股价跌破布林下轨，超卖状态"]
  else []

/-- DMI rule, lines 51-54. -/
def dmiRuleE (df : DataFrame) : Except PyErr (List String) := do
  let p1 ← iloc df "PDI" 1
  let m1 ← iloc df "MDI" 1
  let c1 ←
    if cgt p1 m1 then do
      let p2 ← iloc df "PDI" 2
      let m2 ← iloc df "MDI" 2
      pure (cle p2 m2)
    else pure false
  if c1 then
    pure ["DMI金叉，上升趋势形成"]
  else do
    let p1b ← iloc df "PDI" 1
    let m1b ← iloc df "MDI" 1
    let c2 ←
      if clt p1b m1b then do
        let p2 ← iloc df "PDI" 2
        let m2 ← iloc df "MDI" 2
        pure (cge p2 m2)
      else pure false
    if c2 then
      pure ["DMI死叉，下降趋势形成"]
    else
      pure []

/-- Pure DMI rule. -/
def dmiRuleS (df : DataFrame) : List String :=
  if cgt (lastCell df "PDI") (lastCell df "MDI") &&
      cle (prevCell df "PDI") (prevCell df "MDI") then
    ["DMI金叉，上升趋势形成"]
  else if clt (lastCell df "PDI") (lastCell df "MDI") &&
      cge (prevCell df "PDI") (prevCell df "MDI") then
    ["DMI死叉，下降趋势形成"]
  else []

/-- VR rule, lines 57-60. -/
def vrRuleE (df : DataFrame) : Except PyErr (List String) := do
  let v1 ← iloc df "VR" 1
  if cgt v1 (some 160) then
    pure ["VR大于160，市场活跃度高"]
  else do
    let v1b ← iloc df "VR" 1
    if clt v1b (some 40) then
      pure ["VR小于40，市场活跃度低"]
    else
      pure []

/-- Pure VR rule. -/
def vrRuleS (df : DataFrame) : List String :=
  if cgt (lastCell df "VR") (some 160) then
    ["VR大于160，市场活跃度高"]
  else if clt (lastCell df "VR") (some 40) then
    ["VR小于40，市场活跃度低"]
  else []

/-- ROC rule, lines 63-66. -/
def rocRuleE (df : DataFrame) : Except PyErr (List String) := do
  let r1 ← iloc df "ROC" 1
  let a1 ← iloc df "MAROC" 1
  let c1 ←
    if cgt r1 a1 then do
      let r2 ← iloc df "ROC" 2
      let a2 ← iloc df "MAROC" 2
      pure (cle r2 a2)
    else pure false
  if c1 then
    pure ["ROC上穿均线，上升动能增强"]
  else do
    let r1b ← iloc df "ROC" 1
    let a1b ← iloc df "MAROC" 1
    let c2 ←
      if clt r1b a1b then do
        let r2 ← iloc df "ROC" 2
        let a2 ← iloc df "MAROC" 2
        pure (cge r2 a2)
      else pure false
    if c2 then
      pure ["ROC下穿均线，上升动能减弱"]
    else
      pure []

/-- Pure ROC rule. -/
def rocRuleS (df : DataFrame) : List String :=
  if cgt (lastCell df "ROC") (lastCell df "MAROC") &&
      cle (prevCell df "ROC") (prevCell df "MAROC") then
    ["ROC上穿均线，上升动能增强"]
  else if clt (lastCell df "ROC") (lastCell df "MAROC") &&
      cge (prevCell df "ROC") (prevCell df "MAROC") then
    ["ROC下穿均线，上升动能减弱"]
  else []

/-- The seven rules in source order. -/
def theRules : List (DataFrame → Except PyErr (List String)) :=
  [macdRuleE, kdjRuleE, rsiRuleE, bollRuleE, dmiRuleE, vrRuleE, rocRuleE]

/-- Run the rules in order against one try/except: signals accumulate,
the first exception stops evaluation keeping the signals collected so
far (this is the Python try block of lines 25-70, which wraps the whole
battery). -/
def runAux (df : DataFrame) :
    List String → List (DataFrame → Except PyErr (List String)) →
    List String × Option PyErr
  | acc, [] => (acc, none)
  | acc, r :: rs =>
    match r df with
    | .ok s => runAux df (acc ++ s) rs
    | .error e => (acc, some e)

/-- The rule battery inside the try block. -/
def runRules (df : DataFrame) : List String × Option PyErr :=
  runAux df [] theRules

/-- The pure, no-exception output of the seven rules, concatenated in
rule order. -/
def joinRules (df : DataFrame) : List String :=
  macdRuleS df ++ kdjRuleS df ++ rsiRuleS df ++ bollRuleS df ++
    dmiRuleS df ++ vrRuleS df ++ rocRuleS df

/-- The except branch, lines 68-70: a caught exception appends exactly
one diagnostic message after the signals collected so far. -/
def withDiag (r : List String × Option PyErr) : List String :=
  match r.2 with
  | some e => r.1 ++ ["技术分析计算出错: " ++ pyMsg e]
  | none => r.1

/-- The final return, line 72: an empty signal list is replaced by the
single sentinel message. -/
def finalize (s : List String) : List String :=
  if s.isEmpty then ["当前无明显交易信号"] else s

/-- generate_trading_signals, src/main.py lines 17-72. -/
def generate_trading_signals (df : DataFrame) : List String :=
  if df.nrows < 2 then ["数据不足，无法进行技术分析"]
  else finalize (withDiag (runRules df))

/-- The columns generate_trading_signals reads. -/
def neededCols : List String :=
  ["MACD", "K", "D", "RSI", "close", "BOLL_UP", "BOLL_LOW", "PDI", "MDI",
    "VR", "ROC", "MAROC"]

/-- A frame is complete for the signal generator when it has at least two
rows and every column the rules read is present (as the Indicator
Assembler guarantees for its augmented tables). -/
def CompleteB (df : DataFrame) : Bool :=
  decide (2 ≤ df.nrows) && neededCols.all (fun c => (df.cols.lookup c).isSome)

/-! Basic lemmas about the embedding. -/

theorem exc_bind_ok {α β : Type} (a : α) (f : α → Except PyErr β) :
    (Except.ok a >>= f) = f a := rfl

theorem exc_bind_err {α β : Type} (e : PyErr) (f : α → Except PyErr β) :
    ((Except.error e : Except PyErr α) >>= f) = .error e := rfl

theorem exc_pure {α : Type} (a : α) : (pure a : Except PyErr α) = .ok a := rfl

theorem lookup_mem {ps : List (String × List Cell)} {c : String} {l : List Cell}
    (h : ps.lookup c = some l) : (c, l) ∈ ps := by
  induction ps with
  | nil => simp [List.lookup] at h
  | cons p ps ih =>
    obtain ⟨k, v⟩ := p
    rw [List.lookup] at h
    by_cases hc : c = k
    · subst hc
      simp at h
      subst h
      exact List.mem_cons_self _ _
    · have hb : (c == k) = false := by simpa using hc
      rw [hb] at h
      exact List.mem_cons_of_mem _ (ih h)

theorem col_length {df : DataFrame} {c : String} {l : List Cell}
    (h : df.cols.lookup c = some l) : l.length = df.nrows :=
  df.hlen _ (lookup_mem h)

theorem iloc_ok {df : DataFrame} {c : String} {k : Nat}
    (hc : (df.cols.lookup c).isSome = true) (hn : 2 ≤ df.nrows)
    (hk1 : 1 ≤ k) (hk2 : k ≤ 2) :
    iloc df c k = .ok (cellAt df c k) := by
  obtain ⟨l, hl⟩ := Option.isSome_iff_exists.mp hc
  have hlen : l.length = df.nrows := col_length hl
  have hcond : 1 ≤ k ∧ k ≤ l.length := by omega
  unfold iloc
  simp only [hl]
  rw [dif_pos hcond]
  unfold cellAt colD
  rw [hl]
  simp only [Option.getD_some]
  rw [List.get?_eq_get (by omega : l.length - k < l.length)]
  rfl

theorem macdRuleE_ok {df : DataFrame}
    (hc : (df.cols.lookup "MACD").isSome = true) (hn : 2 ≤ df.nrows) :
    macdRuleE df = .ok (macdRuleS df) := by
  unfold macdRuleE macdRuleS lastCell prevCell
  rw [iloc_ok hc hn (by omega) (by omega), iloc_ok hc hn (by omega) (by omega)]
  cases hA : cgt (cellAt df "MACD" 1) (some 0) <;>
    cases hB : cge (some 0) (cellAt df "MACD" 2) <;>
    cases hC : clt (cellAt df "MACD" 1) (some 0) <;>
    cases hD : cle (some 0) (cellAt df "MACD" 2) <;>
    simp [hA, hB, hC, hD, exc_bind_ok, exc_pure]

theorem kdjRuleE_ok {df : DataFrame}
    (hK : (df.cols.lookup "K").isSome = true)
    (hD : (df.cols.lookup "D").isSome = true) (hn : 2 ≤ df.nrows) :
    kdjRuleE df = .ok (kdjRuleS df) := by
  unfold kdjRuleE kdjRuleS lastCell
  rw [iloc_ok hK hn (by omega) (by omega), iloc_ok hD hn (by omega) (by omega)]
  cases hA : clt (cellAt df "K" 1) (some 20) <;>
    cases hB : clt (cellAt df "D" 1) (some 20) <;>
    cases hC : cgt (cellAt df "K" 1) (some 80) <;>
    cases hE : cgt (cellAt df "D" 1) (some 80) <;>
    simp [hA, hB, hC, hE, exc_bind_ok, exc_pure]

theorem rsiRuleE_ok {df : DataFrame}
    (hR : (df.cols.lookup "RSI").isSome = true) (hn : 2 ≤ df.nrows) :
    rsiRuleE df = .ok (rsiRuleS df) := by
  unfold rsiRuleE rsiRuleS lastCell
  rw [iloc_ok hR hn (by omega) (by omega)]
  cases hA : clt (cellAt df "RSI" 1) (some 20) <;>
    cases hB : cgt (cellAt df "RSI" 1) (some 80) <;>
    simp [hA, hB, exc_bind_ok, exc_pure]

theorem bollRuleE_ok {df : DataFrame}
    (hc : (df.cols.lookup "close").isSome = true)
    (hu : (df.cols.lookup "BOLL_UP").isSome = true)
    (hl : (df.cols.lookup "BOLL_LOW").isSome = true) (hn : 2 ≤ df.nrows) :
    bollRuleE df = .ok (bollRuleS df) := by
  unfold bollRuleE bollRuleS lastCell
  rw [iloc_ok hc hn (by omega) (by omega), iloc_ok hu hn (by omega) (by omega),
    iloc_ok hl hn (by omega) (by omega)]
  cases hA : cgt (cellAt df "close" 1) (cellAt df "BOLL_UP" 1) <;>
    cases hB : clt (cellAt df "close" 1) (cellAt df "BOLL_LOW" 1) <;>
    simp [hA, hB, exc_bind_ok, exc_pure]

theorem dmiRuleE_ok {df : DataFrame}
    (hp : (df.cols.lookup "PDI").isSome = true)
    (hm : (df.cols.lookup "MDI").isSome = true) (hn : 2 ≤ df.nrows) :
    dmiRuleE df = .ok (dmiRuleS df) := by
  unfold dmiRuleE dmiRuleS lastCell prevCell
  rw [iloc_ok hp hn (by omega) (by omega), iloc_ok hm hn (by omega) (by omega),
    iloc_ok hp hn (by omega) (by omega), iloc_ok hm hn (by omega) (by omega)]
  cases hA : cgt (cellAt df "PDI" 1) (cellAt df "MDI" 1) <;>
    cases hB : cle (cellAt df "PDI" 2) (cellAt df "MDI" 2) <;>
    cases hC : clt (cellAt df "PDI" 1) (cellAt df "MDI" 1) <;>
    cases hE : cge (cellAt df "PDI" 2) (cellAt df "MDI" 2) <;>
    simp [hA, hB, hC, hE, exc_bind_ok, exc_pure]

theorem vrRuleE_ok {df : DataFrame}
    (hv : (df.cols.lookup "VR").isSome = true) (hn : 2 ≤ df.nrows) :
    vrRuleE df = .ok (vrRuleS df) := by
  unfold vrRuleE vrRuleS lastCell
  rw [iloc_ok hv hn (by omega) (by omega)]
  cases hA : cgt (cellAt df "VR" 1) (some 160) <;>
    cases hB : clt (cellAt df "VR" 1) (some 40) <;>
    simp [hA, hB, exc_bind_ok, exc_pure]

theorem rocRuleE_ok {df : DataFrame}
    (hr : (df.cols.lookup "ROC").isSome = true)
    (hm : (df.cols.lookup "MAROC").isSome = true) (hn : 2 ≤ df.nrows) :
    rocRuleE df = .ok (rocRuleS df) := by
  unfold rocRuleE rocRuleS lastCell prevCell
  rw [iloc_ok hr hn (by omega) (by omega), iloc_ok hm hn (by omega) (by omega),
    iloc_ok hr hn (by omega) (by omega), iloc_ok hm hn (by omega) (by omega)]
  cases hA : cgt (cellAt df "ROC" 1) (cellAt df "MAROC" 1) <;>
    cases hB : cle (cellAt df "ROC" 2) (cellAt df "MAROC" 2) <;>
    cases hC : clt (cellAt df "ROC" 1) (cellAt df "MAROC" 1) <;>
    cases hE : cge (cellAt df "ROC" 2) (cellAt df "MAROC" 2) <;>
    simp [hA, hB, hC, hE, exc_bind_ok, exc_pure]

theorem completeB_elim {df : DataFrame} (h : CompleteB df = true) :
    2 ≤ df.nrows ∧ ∀ c ∈ neededCols, (df.cols.lookup c).isSome = true := by
  unfold CompleteB at h
  rw [Bool.and_eq_true] at h
  exact ⟨by simpa using h.1, fun c hc => List.all_eq_true.mp h.2 c hc⟩

theorem runRules_complete {df : DataFrame} (h : CompleteB df = true) :
    runRules df = (joinRules df, none) := by
  obtain ⟨hn, hcols⟩ := completeB_elim h
  have h1 := hcols "MACD" (by simp [neededCols])
  have h2 := hcols "K" (by simp [neededCols])
  have h3 := hcols "D" (by simp [neededCols])
  have h4 := hcols "RSI" (by simp [neededCols])
  have h5 := hcols "close" (by simp [neededCols])
  have h6 := hcols "BOLL_UP" (by simp [neededCols])
  have h7 := hcols "BOLL_LOW" (by simp [neededCols])
  have h8 := hcols "PDI" (by simp [neededCols])
  have h9 := hcols "MDI" (by simp [neededCols])
  have h10 := hcols "VR" (by simp [neededCols])
  have h11 := hcols "ROC" (by simp [neededCols])
  have h12 := hcols "MAROC" (by simp [neededCols])
  simp only [runRules, theRules, runAux, macdRuleE_ok h1 hn, kdjRuleE_ok h2 h3 hn,
    rsiRuleE_ok h4 hn, bollRuleE_ok h5 h6 h7 hn, dmiRuleE_ok h8 h9 hn,
    vrRuleE_ok h10 hn, rocRuleE_ok h11 h12 hn, joinRules]
  simp [List.append_assoc]

theorem gen_complete {df : DataFrame} (h : CompleteB df = true) :
    generate_trading_signals df =
      if (joinRules df).isEmpty then ["当前无明显交易信号"] else joinRules df := by
  obtain ⟨hn, -⟩ := completeB_elim h
  unfold generate_trading_signals
  rw [if_neg (by omega), runRules_complete h]
  rfl

theorem finalize_ne_nil (s : List String) : finalize s ≠ [] := by
  unfold finalize
  split
  · simp
  · next hne => simpa using hne

theorem gen_ne_nil (df : DataFrame) : generate_trading_signals df ≠ [] := by
  unfold generate_trading_signals
  split
  · simp
  · exact finalize_ne_nil _

/-! Membership reasoning for the pure rules. -/

theorem mem_twoIf {a b : Bool} {m1 m2 x : String}
    (h : x ∈ (if a then [m1] else if b then [m2] else [])) :
    x = m1 ∨ x = m2 := by
  cases a <;> cases b <;> simp at h <;> tauto

theorem mem_twoIf_iff {a b : Bool} {m1 m2 x : String} :
    x ∈ (if a then [m1] else if b then [m2] else []) ↔
      (a = true ∧ x = m1) ∨ (a = false ∧ b = true ∧ x = m2) := by
  cases a <;> cases b <;> simp

theorem macdRuleS_mem {df : DataFrame} {x : String} (h : x ∈ macdRuleS df) :
    x = "MACD金叉形成，可能上涨" ∨ x = "MACD死叉形成，可能下跌" := by
  unfold macdRuleS at h; exact mem_twoIf h

theorem kdjRuleS_mem {df : DataFrame} {x : String} (h : x ∈ kdjRuleS df) :
    x = "KDJ超卖，可能反弹" ∨ x = "KDJ超买，注意回调" := by
  unfold kdjRuleS at h; exact mem_twoIf h

theorem rsiRuleS_mem {df : DataFrame} {x : String} (h : x ∈ rsiRuleS df) :
    x = "RSI超卖，可能反弹" ∨ x = "RSI超买，注意回调" := by
  unfold rsiRuleS at h; exact mem_twoIf h

theorem bollRuleS_mem {df : DataFrame} {x : String} (h : x ∈ bollRuleS df) :
    x = "股价突破布林上轨，超买状态" ∨ x = "股价跌破布林下轨，超卖状态" := by
  unfold bollRuleS at h; exact mem_twoIf h

theorem dmiRuleS_mem {df : DataFrame} {x : String} (h : x ∈ dmiRuleS df) :
    x = "DMI金叉，上升趋势形成" ∨ x = "DMI死叉，下降趋势形成" := by
  unfold dmiRuleS at h; exact mem_twoIf h

theorem vrRuleS_mem {df : DataFrame} {x : String} (h : x ∈ vrRuleS df) :
    x = "VR大于160，市场活跃度高" ∨ x = "VR小于40，市场活跃度低" := by
  unfold vrRuleS at h; exact mem_twoIf h

theorem rocRuleS_mem {df : DataFrame} {x : String} (h : x ∈ rocRuleS df) :
    x = "ROC上穿均线，上升动能增强" ∨ x = "ROC下穿均线，上升动能减弱" := by
  unfold rocRuleS at h; exact mem_twoIf h

/-- Every signal in the pure battery output is one of the fourteen fixed
rule messages. -/
theorem joinRules_mem {df : DataFrame} {x : String} (h : x ∈ joinRules df) :
    x ∈ ["MACD金叉形成，可能上涨", "MACD死叉形成，可能下跌", "KDJ超卖，可能反弹",
      "KDJ超买，注意回调", "RSI超卖，可能反弹", "RSI超买，注意回调",
      "股价突破布林上轨，超买状态", "股价跌破布林下轨，超卖状态",
      "DMI金叉，上升趋势形成", "DMI死叉，下降趋势形成", "VR大于160，市场活跃度高",
      "VR小于40，市场活跃度低", "ROC上穿均线，上升动能增强", "ROC下穿均线，上升动能减弱"] := by
  unfold joinRules at h
  simp only [List.mem_append] at h
  rcases h with ((((((h | h) | h) | h) | h) | h) | h)
  · rcases macdRuleS_mem h with h2 | h2 <;> subst h2 <;> decide
  · rcases kdjRuleS_mem h with h2 | h2 <;> subst h2 <;> decide
  · rcases rsiRuleS_mem h with h2 | h2 <;> subst h2 <;> decide
  · rcases bollRuleS_mem h with h2 | h2 <;> subst h2 <;> decide
  · rcases dmiRuleS_mem h with h2 | h2 <;> subst h2 <;> decide
  · rcases vrRuleS_mem h with h2 | h2 <;> subst h2 <;> decide
  · rcases rocRuleS_mem h with h2 | h2 <;> subst h2 <;> decide

/-! Translation of the cell comparisons to statements about rationals. -/

theorem cgt_some_iff {a : Cell} {q : ℚ} :
    cgt a (some q) = true ↔ ∃ x, a = some x ∧ q < x := by
  cases a <;> simp [cgt]

theorem clt_some_iff {a : Cell} {q : ℚ} :
    clt a (some q) = true ↔ ∃ x, a = some x ∧ x < q := by
  cases a <;> simp [clt]

theorem cge_some_iff {a : Cell} {q : ℚ} :
    cge (some q) a = true ↔ ∃ x, a = some x ∧ x ≤ q := by
  cases a <;> simp [cge]

theorem cle_some_iff {a : Cell} {q : ℚ} :
    cle (some q) a = true ↔ ∃ x, a = some x ∧ q ≤ x := by
  cases a <;> simp [cle]

theorem cgt_false_of_clt {a : Cell} {q r : ℚ} (hqr : q ≤ r) (h : clt a (some q) = true) :
    cgt a (some r) = false := by
  rcases clt_some_iff.mp h with ⟨x, hx, hlt⟩
  subst hx
  simp only [cgt, decide_eq_false_iff_not, not_lt]
  linarith

theorem clt_false_of_cgt {a : Cell} {q r : ℚ} (hqr : q ≤ r) (h : cgt a (some r) = true) :
    clt a (some q) = false := by
  rcases cgt_some_iff.mp h with ⟨x, hx, hlt⟩
  subst hx
  simp only [clt, decide_eq_false_iff_not, not_lt]
  linarith

/-- Unfolded membership in the battery output: a signal is in the battery
output exactly when its own rule fires it (all fourteen messages are
pairwise distinct). -/
theorem mem_join_iff {df : DataFrame} {x : String} :
    x ∈ joinRules df ↔
      x ∈ macdRuleS df ∨ x ∈ kdjRuleS df ∨ x ∈ rsiRuleS df ∨ x ∈ bollRuleS df ∨
        x ∈ dmiRuleS df ∨ x ∈ vrRuleS df ∨ x ∈ rocRuleS df := by
  unfold joinRules
  simp only [List.mem_append]
  tauto

theorem bull_mem_join_iff {df : DataFrame} :
    "MACD金叉形成，可能上涨" ∈ joinRules df ↔
      (cgt (lastCell df "MACD") (some 0) && cge (some 0) (prevCell df "MACD")) = true := by
  rw [mem_join_iff]
  constructor
  · rintro (h | h | h | h | h | h | h)
    · unfold macdRuleS at h
      rcases mem_twoIf_iff.mp h with ⟨ha, _⟩ | ⟨_, _, hx⟩
      · exact ha
      · exact absurd hx (by decide)
    · exact absurd (kdjRuleS_mem h) (by decide)
    · exact absurd (rsiRuleS_mem h) (by decide)
    · exact absurd (bollRuleS_mem h) (by decide)
    · exact absurd (dmiRuleS_mem h) (by decide)
    · exact absurd (vrRuleS_mem h) (by decide)
    · exact absurd (rocRuleS_mem h) (by decide)
  · intro ha
    refine Or.inl ?_
    unfold macdRuleS
    exact mem_twoIf_iff.mpr (.inl ⟨ha, rfl⟩)

theorem death_mem_join_iff {df : DataFrame} :
    "MACD死叉形成，可能下跌" ∈ joinRules df ↔
      (clt (lastCell df "MACD") (some 0) && cle (some 0) (prevCell df "MACD")) = true := by
  rw [mem_join_iff]
  constructor
  · rintro (h | h | h | h | h | h | h)
    · unfold macdRuleS at h
      rcases mem_twoIf_iff.mp h with ⟨_, hx⟩ | ⟨_, hb, _⟩
      · exact absurd hx (by decide)
      · exact hb
    · exact absurd (kdjRuleS_mem h) (by decide)
    · exact absurd (rsiRuleS_mem h) (by decide)
    · exact absurd (bollRuleS_mem h) (by decide)
    · exact absurd (dmiRuleS_mem h) (by decide)
    · exact absurd (vrRuleS_mem h) (by decide)
    · exact absurd (rocRuleS_mem h) (by decide)
  · intro hb
    refine Or.inl ?_
    unfold macdRuleS
    refine mem_twoIf_iff.mpr (.inr ⟨?_, hb, rfl⟩)
    have h1 : clt (lastCell df "MACD") (some 0) = true := by
      have hb2 := hb
      rw [Bool.and_eq_true] at hb2
      exact hb2.1
    rw [Bool.and_eq_false_iff]
    exact .inl (cgt_false_of_clt le_rfl h1)

theorem rsiOS_mem_join_iff {df : DataFrame} :
    "RSI超卖，可能反弹" ∈ joinRules df ↔ clt (lastCell df "RSI") (some 20) = true := by
  rw [mem_join_iff]
  constructor
  · rintro (h | h | h | h | h | h | h)
    · exact absurd (macdRuleS_mem h) (by decide)
    · exact absurd (kdjRuleS_mem h) (by decide)
    · unfold rsiRuleS at h
      rcases mem_twoIf_iff.mp h with ⟨ha, _⟩ | ⟨_, _, hx⟩
      · exact ha
      · exact absurd hx (by decide)
    · exact absurd (bollRuleS_mem h) (by decide)
    · exact absurd (dmiRuleS_mem h) (by decide)
    · exact absurd (vrRuleS_mem h) (by decide)
    · exact absurd (rocRuleS_mem h) (by decide)
  · intro ha
    refine .inr (.inr (.inl ?_))
    unfold rsiRuleS
    exact mem_twoIf_iff.mpr (.inl ⟨ha, rfl⟩)

theorem rsiOB_mem_join_iff {df : DataFrame} :
    "RSI超买，注意回调" ∈ joinRules df ↔ cgt (lastCell df "RSI") (some 80) = true := by
  rw [mem_join_iff]
  constructor
  · rintro (h | h | h | h | h | h | h)
    · exact absurd (macdRuleS_mem h) (by decide)
    · exact absurd (kdjRuleS_mem h) (by decide)
    · unfold rsiRuleS at h
      rcases mem_twoIf_iff.mp h with ⟨_, hx⟩ | ⟨_, hb, _⟩
      · exact absurd hx (by decide)
      · exact hb
    · exact absurd (bollRuleS_mem h) (by decide)
    · exact absurd (dmiRuleS_mem h) (by decide)
    · exact absurd (vrRuleS_mem h) (by decide)
    · exact absurd (rocRuleS_mem h) (by decide)
  · intro hb
    refine .inr (.inr (.inl ?_))
    unfold rsiRuleS
    exact mem_twoIf_iff.mpr (.inr ⟨clt_false_of_cgt (by norm_num) hb, hb, rfl⟩)

/-- Membership in the generated signals of a complete frame. -/
theorem mem_gen_iff {df : DataFrame} (h : CompleteB df = true) {x : String} :
    x ∈ generate_trading_signals df ↔
      (joinRules df = [] ∧ x = "当前无明显交易信号") ∨ x ∈ joinRules df := by
  rw [gen_complete h]
  by_cases he : (joinRules df).isEmpty
  · have hj : joinRules df = [] := by simpa using he
    simp [he, hj]
  · have hj : joinRules df ≠ [] := by simpa using he
    simp [he, hj]

theorem bull_mem_gen_iff {df : DataFrame} (h : CompleteB df = true) :
    "MACD金叉形成，可能上涨" ∈ generate_trading_signals df ↔
      (cgt (lastCell df "MACD") (some 0) && cge (some 0) (prevCell df "MACD")) = true := by
  rw [mem_gen_iff h, bull_mem_join_iff]
  constructor
  · rintro (⟨_, hx⟩ | hb)
    · exact absurd hx (by decide)
    · exact hb
  · exact fun hb => .inr hb

theorem death_mem_gen_iff {df : DataFrame} (h : CompleteB df = true) :
    "MACD死叉形成，可能下跌" ∈ generate_trading_signals df ↔
      (clt (lastCell df "MACD") (some 0) && cle (some 0) (prevCell df "MACD")) = true := by
  rw [mem_gen_iff h, death_mem_join_iff]
  constructor
  · rintro (⟨_, hx⟩ | hb)
    · exact absurd hx (by decide)
    · exact hb
  · exact fun hb => .inr hb

theorem rsiOS_mem_gen_iff {df : DataFrame} (h : CompleteB df = true) :
    "RSI超卖，可能反弹" ∈ generate_trading_signals df ↔
      clt (lastCell df "RSI") (some 20) = true := by
  rw [mem_gen_iff h, rsiOS_mem_join_iff]
  constructor
  · rintro (⟨_, hx⟩ | hb)
    · exact absurd hx (by decide)
    · exact hb
  · exact fun hb => .inr hb

theorem rsiOB_mem_gen_iff {df : DataFrame} (h : CompleteB df = true) :
    "RSI超买，注意回调" ∈ generate_trading_signals df ↔
      cgt (lastCell df "RSI") (some 80) = true := by
  rw [mem_gen_iff h, rsiOB_mem_join_iff]
  constructor
  · rintro (⟨_, hx⟩ | hb)
    · exact absurd hx (by decide)
    · exact hb
  · exact fun hb => .inr hb

theorem bullCond_iff {df : DataFrame} :
    (cgt (lastCell df "MACD") (some 0) && cge (some 0) (prevCell df "MACD")) = true ↔
      ∃ p q, prevCell df "MACD" = some p ∧ lastCell df "MACD" = some q ∧
        p ≤ 0 ∧ 0 < q := by
  rw [Bool.and_eq_true, cgt_some_iff, cge_some_iff]
  constructor
  · rintro ⟨⟨q, hq, h0q⟩, p, hp, hp0⟩
    exact ⟨p, q, hp, hq, hp0, h0q⟩
  · rintro ⟨p, q, hp, hq, hp0, h0q⟩
    exact ⟨⟨q, hq, h0q⟩, p, hp, hp0⟩

theorem deathCond_iff {df : DataFrame} :
    (clt (lastCell df "MACD") (some 0) && cle (some 0) (prevCell df "MACD")) = true ↔
      ∃ p q, prevCell df "MACD" = some p ∧ lastCell df "MACD" = some q ∧
        0 ≤ p ∧ q < 0 := by
  rw [Bool.and_eq_true, clt_some_iff, cle_some_iff]
  constructor
  · rintro ⟨⟨q, hq, h0q⟩, p, hp, hp0⟩
    exact ⟨p, q, hp, hq, hp0, h0q⟩
  · rintro ⟨p, q, hp, hq, hp0, h0q⟩
    exact ⟨⟨q, hq, h0q⟩, p, hp, hp0⟩

theorem bull_not_mem_rest (df : DataFrame) :
    "MACD金叉形成，可能上涨" ∉
      kdjRuleS df ++ rsiRuleS df ++ bollRuleS df ++ dmiRuleS df ++ vrRuleS df ++
        rocRuleS df := by
  intro hx
  simp only [List.mem_append] at hx
  rcases hx with ((((h | h) | h) | h) | h) | h
  · exact absurd (kdjRuleS_mem h) (by decide)
  · exact absurd (rsiRuleS_mem h) (by decide)
  · exact absurd (bollRuleS_mem h) (by decide)
  · exact absurd (dmiRuleS_mem h) (by decide)
  · exact absurd (vrRuleS_mem h) (by decide)
  · exact absurd (rocRuleS_mem h) (by decide)

/-! Concrete frames used as witnesses and counterexamples. -/

/-- Complete two-row table: K = D = 15 and RSI = 10 in the last row, all
other rules quiet. -/
def wdf1 : DataFrame where
  nrows := 2
  index := [0, 1]
  cols := [("MACD", [some 1, some 1]), ("K", [some 15, some 15]),
    ("D", [some 15, some 15]), ("RSI", [some 50, some 10]),
    ("close", [some 10, some 10]), ("BOLL_UP", [some 11, some 11]),
    ("BOLL_LOW", [some 9, some 9]), ("PDI", [some 20, some 20]),
    ("MDI", [some 20, some 20]), ("VR", [some 100, some 100]),
    ("ROC", [some 0, some 0]), ("MAROC", [some 0, some 0])]
  hidx := by decide
  hlen := by decide

/-- Complete two-row table whose last two MACD histogram values are
(0, 1): the histogram does not change sign from negative to positive,
yet the bullish rule fires. -/
def cdf2 : DataFrame where
  nrows := 2
  index := [0, 1]
  cols := [("MACD", [some 0, some 1]), ("K", [some 50, some 50]),
    ("D", [some 50, some 50]), ("RSI", [some 50, some 50]),
    ("close", [some 10, some 10]), ("BOLL_UP", [some 11, some 11]),
    ("BOLL_LOW", [some 9, some 9]), ("PDI", [some 20, some 20]),
    ("MDI", [some 20, some 20]), ("VR", [some 100, some 100]),
    ("ROC", [some 0, some 0]), ("MAROC", [some 0, some 0])]
  hidx := by decide
  hlen := by decide

/-- Complete two-row table whose last two MACD histogram values are
(-0.1, 0.2), all other rules quiet. -/
def wdf2 : DataFrame where
  nrows := 2
  index := [0, 1]
  cols := [("MACD", [some (-(1/10)), some (2/10)]), ("K", [some 50, some 50]),
    ("D", [some 50, some 50]), ("RSI", [some 50, some 50]),
    ("close", [some 10, some 10]), ("BOLL_UP", [some 11, some 11]),
    ("BOLL_LOW", [some 9, some 9]), ("PDI", [some 20, some 20]),
    ("MDI", [some 20, some 20]), ("VR", [some 100, some 100]),
    ("ROC", [some 0, some 0]), ("MAROC", [some 0, some 0])]
  hidx := by decide
  hlen := by decide

/-- Complete two-row table on which no rule fires. -/
def wdf3 : DataFrame where
  nrows := 2
  index := [0, 1]
  cols := [("MACD", [some 1, some 1]), ("K", [some 50, some 50]),
    ("D", [some 50, some 50]), ("RSI", [some 50, some 50]),
    ("close", [some 10, some 10]), ("BOLL_UP", [some 11, some 11]),
    ("BOLL_LOW", [some 9, some 9]), ("PDI", [some 20, some 20]),
    ("MDI", [some 20, some 20]), ("VR", [some 100, some 100]),
    ("ROC", [some 0, some 0]), ("MAROC", [some 0, some 0])]
  hidx := by decide
  hlen := by decide

/-- Two-row table with the K column missing, every other rule column
present; the last RSI value 10 would fire the RSI oversold rule. -/
def cdf4 : DataFrame where
  nrows := 2
  index := [0, 1]
  cols := [("MACD", [some 1, some 1]), ("D", [some 50, some 50]),
    ("RSI", [some 50, some 10]), ("close", [some 10, some 10]),
    ("BOLL_UP", [some 11, some 11]), ("BOLL_LOW", [some 9, some 9]),
    ("PDI", [some 20, some 20]), ("MDI", [some 20, some 20]),
    ("VR", [some 100, some 100]), ("ROC", [some 0, some 0]),
    ("MAROC", [some 0, some 0])]
  hidx := by decide
  hlen := by decide

/-- One-row series: too short for any differential. -/
def wdf5a : DataFrame where
  nrows := 1
  index := [0]
  cols := [("close", [some 10])]
  hidx := by decide
  hlen := by decide

/-- Complete quiet two-row table for the second half of C5. -/
def wdf5b : DataFrame where
  nrows := 2
  index := [0, 1]
  cols := [("MACD", [some (-1), some (-1)]), ("K", [some 50, some 50]),
    ("D", [some 50, some 50]), ("RSI", [some 50, some 50]),
    ("close", [some 10, some 10]), ("BOLL_UP", [some 11, some 11]),
    ("BOLL_LOW", [some 9, some 9]), ("PDI", [some 20, some 20]),
    ("MDI", [some 20, some 20]), ("VR", [some 100, some 100]),
    ("ROC", [some 0, some 0]), ("MAROC", [some 0, some 0])]
  hidx := by decide
  hlen := by decide

/-- Complete two-row table with RSI exactly 20 in the last row. -/
def wdf9 : DataFrame where
  nrows := 2
  index := [0, 1]
  cols := [("MACD", [some 1, some 1]), ("K", [some 50, some 50]),
    ("D", [some 50, some 50]), ("RSI", [some 50, some 20]),
    ("close", [some 10, some 10]), ("BOLL_UP", [some 11, some 11]),
    ("BOLL_LOW", [some 9, some 9]), ("PDI", [some 20, some 20]),
    ("MDI", [some 20, some 20]), ("VR", [some 100, some 100]),
    ("ROC", [some 0, some 0]), ("MAROC", [some 0, some 0])]
  hidx := by decide
  hlen := by decide

/-- Complete two-row table whose last two MACD histogram values are
(0, 1). -/
def wdf10 : DataFrame where
  nrows := 2
  index := [0, 1]
  cols := [("MACD", [some 0, some 1]), ("K", [some 50, some 50]),
    ("D", [some 50, some 50]), ("RSI", [some 50, some 50]),
    ("close", [some 10, some 10]), ("BOLL_UP", [some 11, some 11]),
    ("BOLL_LOW", [some 9, some 9]), ("PDI", [some 20, some 20]),
    ("MDI", [some 20, some 20]), ("VR", [some 100, some 100]),
    ("ROC", [some 0, some 0]), ("MAROC", [some 0, some 0])]
  hidx := by decide
  hlen := by decide

/-! Claim theorems for the Signal Generator. -/

/-- C1: the Signal Generator evaluates its rules in the fixed order MACD,
KDJ, RSI, Bollinger, DMI, VR, ROC, and the output preserves that order:
on every complete augmented table with at least two rows, the output is
exactly the rule-order concatenation of the per-rule message lists (with
the sentinel replacing an empty concatenation), so any two signals fired
by different rules appear in rule order; in particular, with K = D = 15
and RSI = 10 in the last row, the KDJ oversold message appears before
the RSI oversold message. -/
theorem c1_rule_order (df : DataFrame) (h : CompleteB df = true) :
    generate_trading_signals df =
      if (joinRules df).isEmpty then ["当前无明显交易信号"] else joinRules df :=
  gen_complete h

/-- Witness for C1: at the concrete table with K = D = 15 and RSI = 10 in
the last row, the output is exactly the KDJ oversold message followed by
the RSI oversold message. -/
theorem c1_rule_order_witness :
    CompleteB wdf1 = true ∧
      generate_trading_signals wdf1 = ["KDJ超卖，可能反弹", "RSI超卖，可能反弹"] :=
  ⟨by decide, by rw [c1_rule_order wdf1 (by decide)]; decide⟩

/-- The sign-change trigger claimed by the spec for the bullish MACD
crossover, read literally: the previous histogram value is strictly
negative and the latest strictly positive. -/
def specSignChangeNegPos (df : DataFrame) : Prop :=
  ∃ p q, prevCell df "MACD" = some p ∧ lastCell df "MACD" = some q ∧ p < 0 ∧ 0 < q

/-- C2 counterexample: on the concrete table whose last two MACD
histogram values are (0, 1), the bullish crossover message is produced
although the histogram did not change sign from negative to positive, so
the bullish message is not appended "exactly when" the histogram changes
sign negative to positive. -/
theorem c2_counterexample :
    "MACD金叉形成，可能上涨" ∈ generate_trading_signals cdf2 ∧
      ¬ specSignChangeNegPos cdf2 := by
  refine ⟨by decide, ?_⟩
  rintro ⟨p, q, hp, hq, hp0, hq0⟩
  have h0 : prevCell cdf2 "MACD" = some 0 := by decide
  rw [h0] at hp
  have hp' : (0 : ℚ) = p := Option.some_inj.mp hp
  rw [← hp'] at hp0
  exact absurd hp0 (lt_irrefl 0)

/-- C2 (amended): the MACD rule appends the bullish message exactly when
the previous histogram value is less than or equal to zero and the
latest is strictly positive, and the bearish message exactly when the
previous value is greater than or equal to zero and the latest strictly
negative; in particular, if the last two MACD histogram values are
(-0.1, 0.2), the bullish crossover message is the first element of the
output and occurs exactly once. -/
theorem c2_macd_rule (df : DataFrame) (h : CompleteB df = true) :
    ("MACD金叉形成，可能上涨" ∈ generate_trading_signals df ↔
      ∃ p q, prevCell df "MACD" = some p ∧ lastCell df "MACD" = some q ∧
        p ≤ 0 ∧ 0 < q) ∧
    ("MACD死叉形成，可能下跌" ∈ generate_trading_signals df ↔
      ∃ p q, prevCell df "MACD" = some p ∧ lastCell df "MACD" = some q ∧
        0 ≤ p ∧ q < 0) ∧
    (prevCell df "MACD" = some (-(1/10)) → lastCell df "MACD" = some (2/10) →
      (generate_trading_signals df).head? = some "MACD金叉形成，可能上涨" ∧
      (generate_trading_signals df).count "MACD金叉形成，可能上涨" = 1) := by
  refine ⟨(bull_mem_gen_iff h).trans bullCond_iff,
    (death_mem_gen_iff h).trans deathCond_iff, ?_⟩
  intro hprev hlast
  have hcond : (cgt (lastCell df "MACD") (some 0) &&
      cge (some 0) (prevCell df "MACD")) = true := by
    rw [hprev, hlast]
    unfold cgt cge
    norm_num
  have hmacd : macdRuleS df = ["MACD金叉形成，可能上涨"] := by
    unfold macdRuleS
    rw [if_pos hcond]
  have hjoin : joinRules df = "MACD金叉形成，可能上涨" ::
      (kdjRuleS df ++ rsiRuleS df ++ bollRuleS df ++ dmiRuleS df ++ vrRuleS df ++
        rocRuleS df) := by
    unfold joinRules
    rw [hmacd]
    rfl
  have hgen : generate_trading_signals df = joinRules df := by
    rw [gen_complete h, hjoin]
    simp
  constructor
  · rw [hgen, hjoin]
    rfl
  · rw [hgen, hjoin, List.count_cons_self,
      List.count_eq_zero.mpr (bull_not_mem_rest df)]

/-- Witness for C2 (amended): at the concrete table with MACD histogram
values (-0.1, 0.2), the bullish crossover message is the first element
of the output and occurs exactly once. -/
theorem c2_macd_rule_witness :
    CompleteB wdf2 = true ∧
      (generate_trading_signals wdf2).head? = some "MACD金叉形成，可能上涨" ∧
      (generate_trading_signals wdf2).count "MACD金叉形成，可能上涨" = 1 :=
  ⟨by decide, (c2_macd_rule wdf2 (by decide)).2.2 rfl rfl⟩

/-- C3: on every complete augmented table with at least two rows on
which no signal rule fires, the Signal Generator returns exactly the
single sentinel message, and its result is non-empty for every input
whatsoever. -/
theorem c3_no_signal_sentinel (df : DataFrame) :
    (CompleteB df = true → joinRules df = [] →
      generate_trading_signals df = ["当前无明显交易信号"]) ∧
    generate_trading_signals df ≠ [] := by
  refine ⟨?_, gen_ne_nil df⟩
  intro h hj
  rw [gen_complete h, hj]
  rfl

/-- Witness for C3: at the concrete quiet table every rule is silent and
the output is exactly the sentinel message. -/
theorem c3_no_signal_sentinel_witness :
    CompleteB wdf3 = true ∧ joinRules wdf3 = [] ∧
      generate_trading_signals wdf3 = ["当前无明显交易信号"] ∧
      generate_trading_signals wdf3 ≠ [] :=
  ⟨by decide, by decide, (c3_no_signal_sentinel wdf3).1 (by decide) (by decide),
    (c3_no_signal_sentinel wdf3).2⟩

theorem kdjRuleE_keyError {df : DataFrame} (h : df.cols.lookup "K" = none) :
    kdjRuleE df = .error (.keyError "K") := by
  have hK : iloc df "K" 1 = .error (.keyError "K") := by
    unfold iloc
    simp [h]
  unfold kdjRuleE
  rw [hK]
  rfl

/-- C4 counterexample: on the concrete table whose K column is missing,
the KeyError raised inside the KDJ rule is caught, but the remaining
rules are NOT evaluated: the RSI oversold rule would fire (last RSI is
10 < 20), yet its message is absent and the output is just the single
diagnostic message.  The catch is at the level of the whole rule
battery, not at the rule level. -/
theorem c4_counterexample :
    generate_trading_signals cdf4 = ["技术分析计算出错: KeyError: K"] ∧
      "RSI超卖，可能反弹" ∉ generate_trading_signals cdf4 ∧
      clt (lastCell cdf4 "RSI") (some 20) = true := by
  refine ⟨by decide, ?_, by decide⟩
  intro hx
  rw [(by decide : generate_trading_signals cdf4 =
    ["技术分析计算出错: KeyError: K"])] at hx
  exact absurd (List.mem_singleton.mp hx) (by decide)

/-- C4 (amended): an exception during rule evaluation is caught at the
level of the whole rule battery: evaluation stops at the failing rule,
the signals collected by earlier rules are kept, exactly one diagnostic
message is appended after them, and the caller always receives a
non-empty list.  Shown here for the first failure point after a
successful rule: a frame with at least two rows whose K column is
missing but whose MACD column is present yields the MACD rule output
followed by the single diagnostic. -/
theorem c4_exception_battery (df : DataFrame) :
    generate_trading_signals df ≠ [] ∧
    (2 ≤ df.nrows → df.cols.lookup "K" = none →
      (df.cols.lookup "MACD").isSome = true →
      generate_trading_signals df =
        macdRuleS df ++ ["技术分析计算出错: " ++ pyMsg (.keyError "K")]) := by
  refine ⟨gen_ne_nil df, ?_⟩
  intro hn hK hM
  have hrun : runRules df = (macdRuleS df, some (.keyError "K")) := by
    simp only [runRules, theRules, runAux, macdRuleE_ok hM hn, kdjRuleE_keyError hK]
    simp
  unfold generate_trading_signals
  rw [if_neg (by omega), hrun]
  unfold withDiag finalize
  simp

/-- Witness for C4 (amended), applying the theorem at the concrete table
with the K column missing. -/
theorem c4_exception_battery_witness :
    generate_trading_signals cdf4 ≠ [] ∧
      generate_trading_signals cdf4 =
        macdRuleS cdf4 ++ ["技术分析计算出错: " ++ pyMsg (.keyError "K")] :=
  ⟨(c4_exception_battery cdf4).1,
    (c4_exception_battery cdf4).2 (by decide) (by decide) (by decide)⟩

/-- C5: a series with fewer than two rows makes the Signal Generator
stop with the distinguished insufficient-data message (the code's
realization of InsufficientDataError), and that message is never part of
the output on a complete table with at least two rows, so the outcome is
distinguishable from every normal analysis result. -/
theorem c5_insufficient_data (df : DataFrame) :
    (df.nrows < 2 → generate_trading_signals df = ["数据不足，无法进行技术分析"]) ∧
    (CompleteB df = true →
      "数据不足，无法进行技术分析" ∉ generate_trading_signals df) := by
  constructor
  · intro hn
    unfold generate_trading_signals
    rw [if_pos hn]
  · intro h hx
    rcases (mem_gen_iff h).mp hx with ⟨_, hs⟩ | hj
    · exact absurd hs (by decide)
    · exact absurd (joinRules_mem hj) (by decide)

/-- Witness for C5: a one-row series yields exactly the insufficient-data
message, and a complete two-row table never contains it. -/
theorem c5_insufficient_data_witness :
    generate_trading_signals wdf5a = ["数据不足，无法进行技术分析"] ∧
      "数据不足，无法进行技术分析" ∉ generate_trading_signals wdf5b :=
  ⟨(c5_insufficient_data wdf5a).1 (by decide),
    (c5_insufficient_data wdf5b).2 (by decide)⟩

/-- C9: the RSI extreme rule uses strict comparisons: on every complete
table the RSI oversold message appears exactly when the last RSI value
is strictly below 20 and the overbought message exactly when it is
strictly above 80; with RSI exactly 20 neither message appears. -/
theorem c9_rsi_strict (df : DataFrame) (h : CompleteB df = true) :
    (lastCell df "RSI" = some 20 →
      "RSI超卖，可能反弹" ∉ generate_trading_signals df ∧
      "RSI超买，注意回调" ∉ generate_trading_signals df) ∧
    ("RSI超卖，可能反弹" ∈ generate_trading_signals df ↔
      ∃ x, lastCell df "RSI" = some x ∧ x < 20) ∧
    ("RSI超买，注意回调" ∈ generate_trading_signals df ↔
      ∃ x, lastCell df "RSI" = some x ∧ 80 < x) := by
  have hOS := (rsiOS_mem_gen_iff h).trans clt_some_iff
  have hOB := (rsiOB_mem_gen_iff h).trans cgt_some_iff
  refine ⟨?_, hOS, hOB⟩
  intro h20
  constructor
  · intro hx
    rcases hOS.mp hx with ⟨x, hxv, hlt⟩
    rw [h20] at hxv
    have : (20 : ℚ) = x := Option.some_inj.mp hxv
    rw [← this] at hlt
    exact absurd hlt (lt_irrefl 20)
  · intro hx
    rcases hOB.mp hx with ⟨x, hxv, hlt⟩
    rw [h20] at hxv
    have : (20 : ℚ) = x := Option.some_inj.mp hxv
    rw [← this] at hlt
    norm_num at hlt

/-- Witness for C9 at the concrete table with RSI exactly 20: neither RSI
message appears. -/
theorem c9_rsi_strict_witness :
    CompleteB wdf9 = true ∧
      "RSI超卖，可能反弹" ∉ generate_trading_signals wdf9 ∧
      "RSI超买，注意回调" ∉ generate_trading_signals wdf9 :=
  ⟨by decide, ((c9_rsi_strict wdf9 (by decide)).1 (by decide)).1,
    ((c9_rsi_strict wdf9 (by decide)).1 (by decide)).2⟩

/-- C10: the bullish MACD crossover also fires when the previous
histogram value is exactly zero: on every complete table with last two
MACD values (0, q) and q positive the bullish message is appended, and in
general the trigger is previous value at most zero and latest strictly
positive. -/
theorem c10_macd_zero_boundary (df : DataFrame) (h : CompleteB df = true) :
    (∀ q : ℚ, prevCell df "MACD" = some 0 → lastCell df "MACD" = some q →
      0 < q → "MACD金叉形成，可能上涨" ∈ generate_trading_signals df) ∧
    ("MACD金叉形成，可能上涨" ∈ generate_trading_signals df ↔
      ∃ p q, prevCell df "MACD" = some p ∧ lastCell df "MACD" = some q ∧
        p ≤ 0 ∧ 0 < q) := by
  have hiff := (bull_mem_gen_iff h).trans bullCond_iff
  refine ⟨?_, hiff⟩
  intro q hp hq h0
  exact hiff.mpr ⟨0, q, hp, hq, le_rfl, h0⟩

/-- Witness for C10 at the concrete table with MACD histogram values
(0, 1). -/
theorem c10_macd_zero_boundary_witness :
    CompleteB wdf10 = true ∧
      "MACD金叉形成，可能上涨" ∈ generate_trading_signals wdf10 :=
  ⟨by decide,
    (c10_macd_zero_boundary wdf10 (by decide)).1 1 (by decide) (by decide)
      (by norm_num)⟩

/-! The Indicator Assembler (StockAnalyzer.calculate_indicators) and the
instrument-level caller (StockAnalyzer.generate_analysis_data).  The
MyTT indicator functions are imported third-party code not under src/,
so the assembler is parameterized by an indicator library; only its
call signatures (and, for the RSI claim, a spec-modelled RSI) matter. -/

/-- Signatures of the MyTT calls made by calculate_indicators (the
library itself is external to src/); each call may raise. -/
structure IndicatorLib where
  MACD : List Cell → Except PyErr (List Cell × List Cell × List Cell)
  KDJ : List Cell → List Cell → List Cell →
    Except PyErr (List Cell × List Cell × List Cell)
  BOLL : List Cell → Except PyErr (List Cell × List Cell × List Cell)
  RSI : List Cell → Nat → Except PyErr (List Cell)
  PSY : List Cell → Except PyErr (List Cell × List Cell)
  WR : List Cell → List Cell → List Cell → Except PyErr (List Cell × List Cell)
  BIAS : List Cell → Except PyErr (List Cell × List Cell × List Cell)
  CCI : List Cell → List Cell → List Cell → Except PyErr (List Cell)
  MA : List Cell → Nat → Except PyErr (List Cell)
  ATR : List Cell → List Cell → List Cell → Except PyErr (List Cell)
  EMV : List Cell → List Cell → List Cell → Except PyErr (List Cell × List Cell)
  DPO : List Cell → Except PyErr (List Cell × List Cell)
  TRIX : List Cell → Except PyErr (List Cell × List Cell)
  DMI : List Cell → List Cell → List Cell →
    Except PyErr (List Cell × List Cell × List Cell × List Cell)
  VR : List Cell → List Cell → Except PyErr (List Cell)
  BRAR : List Cell → List Cell → List Cell → List Cell →
    Except PyErr (List Cell × List Cell)
  ROC : List Cell → Except PyErr (List Cell × List Cell)
  MTM : List Cell → Except PyErr (List Cell × List Cell)
  DMA : List Cell → Except PyErr (List Cell × List Cell)

/-- np.nan_to_num with a replacement value for NaN (line 189 uses 50);
ordinary values are kept. -/
def nanToNum (l : List Cell) (v : ℚ) : List Cell :=
  l.map (fun c => some (c.getD v))

/-- np.array(df[c]): raises KeyError when the column is absent. -/
def colE (df : DataFrame) (c : String) : Except PyErr (List Cell) :=
  match df.cols.lookup c with
  | none => .error (.keyError c)
  | some l => .ok l

/-- Column replacement or insertion in a frame's column list (pandas
df[name] = values keeps the position of an existing column and appends a
new one at the end). -/
def setPairs (cols : List (String × List Cell)) (name : String) (l : List Cell) :
    List (String × List Cell) :=
  if cols.any (fun p => p.1 == name) then
    cols.map (fun p => if p.1 == name then (name, l) else p)
  else cols ++ [(name, l)]

theorem setPairs_length {cols : List (String × List Cell)} {name : String}
    {l : List Cell} {n : Nat} (hc : ∀ p ∈ cols, (p.2).length = n)
    (hl : l.length = n) : ∀ p ∈ setPairs cols name l, (p.2).length = n := by
  intro p hp
  unfold setPairs at hp
  split at hp
  · rcases List.mem_map.mp hp with ⟨q, hq, hqe⟩
    by_cases hb : (q.1 == name) = true
    · rw [if_pos hb] at hqe
      rw [← hqe]
      exact hl
    · rw [if_neg hb] at hqe
      rw [← hqe]
      exact hc q hq
  · rcases List.mem_append.mp hp with h | h
    · exact hc p h
    · have : p = (name, l) := by simpa using h
      rw [this]
      exact hl

/-- pandas column assignment df[name] = values: raises ValueError when
the length does not match the frame's row count (pandas enforces this),
otherwise replaces or appends the column; row count and index are
untouched. -/
def setCol (df : DataFrame) (name : String) (l : List Cell) :
    Except PyErr DataFrame :=
  if hl : l.length = df.nrows then
    .ok { nrows := df.nrows, index := df.index,
          cols := setPairs df.cols name l,
          hidx := df.hidx, hlen := setPairs_length df.hlen hl }
  else .error (.valueError name)

/-- All indicator computations of calculate_indicators in source call
order (lines 178-213), returning the column assignments of lines 215-256
in source order; the first raising call aborts the whole computation. -/
def indicatorsOf (lib : IndicatorLib) (df : DataFrame) :
    Except PyErr (List (String × List Cell)) := do
  let close ← colE df "close"
  let open_price ← colE df "open"
  let high ← colE df "high"
  let low ← colE df "low"
  let volume ← colE df "volume"
  let (dif, dea, macd) ← lib.MACD close
  let (k, d, j) ← lib.KDJ close high low
  let (upper, mid, lower) ← lib.BOLL close
  let rsi0 ← lib.RSI close 14
  let rsi := nanToNum rsi0 50
  let (psy, psyma) ← lib.PSY close
  let (wr, wr1) ← lib.WR close high low
  let (bias1, bias2, bias3) ← lib.BIAS close
  let cci ← lib.CCI close high low
  let ma5 ← lib.MA close 5
  let ma10 ← lib.MA close 10
  let ma20 ← lib.MA close 20
  let ma60 ← lib.MA close 60
  let atr ← lib.ATR close high low
  let (emv, maemv) ← lib.EMV high low volume
  let (dpo, madpo) ← lib.DPO close
  let (trix, trma) ← lib.TRIX close
  let (pdi, mdi, adx, adxr) ← lib.DMI close high low
  let vr ← lib.VR close volume
  let (ar, br) ← lib.BRAR open_price close high low
  let (roc, maroc) ← lib.ROC close
  let (mtm, mtmma) ← lib.MTM close
  let (dif_dma, difma_dma) ← lib.DMA close
  pure [("MACD", macd), ("DIF", dif), ("DEA", dea), ("K", k), ("D", d), ("J", j),
    ("BOLL_UP", upper), ("BOLL_MID", mid), ("BOLL_LOW", lower), ("RSI", rsi),
    ("PSY", psy), ("PSYMA", psyma), ("WR", wr), ("WR1", wr1), ("BIAS1", bias1),
    ("BIAS2", bias2), ("BIAS3", bias3), ("CCI", cci), ("MA5", ma5),
    ("MA10", ma10), ("MA20", ma20), ("MA60", ma60), ("ATR", atr), ("EMV", emv),
    ("MAEMV", maemv), ("DPO", dpo), ("MADPO", madpo), ("TRIX", trix),
    ("TRMA", trma), ("PDI", pdi), ("MDI", mdi), ("ADX", adx), ("ADXR", adxr),
    ("VR", vr), ("AR", ar), ("BR", br), ("ROC", roc), ("MAROC", maroc),
    ("MTM", mtm), ("MTMMA", mtmma), ("DIF_DMA", dif_dma),
    ("DIFMA_DMA", difma_dma)]

/-- The 42 columns assigned by calculate_indicators, in assignment
order (lines 215-256). -/
def indicatorNames : List String :=
  ["MACD", "DIF", "DEA", "K", "D", "J", "BOLL_UP", "BOLL_MID", "BOLL_LOW",
   "RSI", "PSY", "PSYMA", "WR", "WR1", "BIAS1", "BIAS2", "BIAS3", "CCI",
   "MA5", "MA10", "MA20", "MA60", "ATR", "EMV", "MAEMV", "DPO", "MADPO",
   "TRIX", "TRMA", "PDI", "MDI", "ADX", "ADXR", "VR", "AR", "BR", "ROC",
   "MAROC", "MTM", "MTMMA", "DIF_DMA", "DIFMA_DMA"]

/-- Sequential column assignments (lines 215-256). -/
def applySetCols (df : DataFrame) :
    List (String × List Cell) → Except PyErr DataFrame
  | [] => .ok df
  | (name, l) :: rest => do
    let df2 ← setCol df name l
    applySetCols df2 rest

/-- StockAnalyzer.calculate_indicators, src/main.py lines 165-262:
returns None when the code has no data; otherwise computes every
indicator first, then assigns all columns onto a copy of the frame; the
surrounding try/except turns any exception into None (the length < 60
check of line 174 only prints a warning and changes nothing). -/
def calculate_indicators (lib : IndicatorLib) (data : List (String × DataFrame))
    (code : String) : Option DataFrame :=
  match data.lookup code with
  | none => none
  | some df =>
    (do
      let as ← indicatorsOf lib df
      applySetCols df as).toOption

/-- The slice of the analysis dictionary of generate_analysis_data that
the claims concern: the data-status entry (数据状态, absent on success)
and the advice list (技术分析建议).  The formatted per-indicator numeric
strings are not modelled, but the column accesses the success branch
performs are, so the try/except control flow is preserved. -/
structure AnalysisReport where
  dataStatus : Option String
  advice : List String
deriving Repr

/-- Python int() applied to a float cell: raises ValueError on NaN
(line 486 formats int(volume)). -/
def intCheck : Cell → Except PyErr Unit
  | none => .error (.valueError "volume")
  | some _ => .ok ()

/-- Last-row accesses of the indicator snapshot of lines 489-526, in
source order. -/
def reportCols : List String :=
  ["MA5", "MA10", "MA20", "MA60", "MACD", "DIF", "DEA", "TRIX", "PDI", "MDI",
   "ADX", "RSI", "K", "D", "J", "BIAS1", "CCI", "VR", "AR", "BR", "ROC", "MTM",
   "DPO", "BOLL_UP", "BOLL_MID", "BOLL_LOW"]

def checkCols (df : DataFrame) : List String → Except PyErr Unit
  | [] => .ok ()
  | c :: rest => do
    let _ ← iloc df c 1
    checkCols df rest

/-- The try block of generate_analysis_data (lines 478-529): basic data
accesses on the raw frame, indicator snapshot accesses on the augmented
frame, then the trading signals. -/
def analysisTry (df latestDf : DataFrame) : Except PyErr (List String) := do
  let _ ← iloc df "close" 1
  let _ ← iloc df "close" 2
  let _ ← iloc df "high" 1
  let _ ← iloc df "low" 1
  let v ← iloc df "volume" 1
  let _ ← intCheck v
  let _ ← checkCols latestDf reportCols
  pure (generate_trading_signals latestDf)

/-- StockAnalyzer.generate_analysis_data, src/main.py lines 430-559
(modelled without a configured LLM; the source tolerates LLM absence and
failure without changing these fields). -/
def generate_analysis_data (lib : IndicatorLib) (data : List (String × DataFrame))
    (code : String) : AnalysisReport :=
  match data.lookup code with
  | none =>
    { dataStatus := some "数据获取失败",
      advice := ["数据获取失败，无法进行技术分析"] }
  | some df =>
    if df.nrows = 0 then
      { dataStatus := some "数据为空", advice := ["数据为空，无法进行分析"] }
    else
      match calculate_indicators lib data code with
      | none =>
        { dataStatus := some "技术指标计算失败", advice := ["技术指标计算失败"] }
      | some latestDf =>
        match analysisTry df latestDf with
        | .ok adv => { dataStatus := none, advice := adv }
        | .error e =>
          { dataStatus := some ("分析出错: " ++ pyMsg e),
            advice := ["分析出错: " ++ pyMsg e] }

/-- The per-instrument loop of generate_html_report (lines 626-758):
an instrument with data gets its analysis report, one without data gets
a static error block (modelled as none); each entry is a function of its
own code only. -/
def processBatch (lib : IndicatorLib) (data : List (String × DataFrame))
    (codes : List String) : List (Option AnalysisReport) :=
  codes.map (fun code =>
    if (data.lookup code).isSome then some (generate_analysis_data lib data code)
    else none)

/-- Modelled from the spec: MyTT's RSI (the MyTT library source is not
under src/).  Spec 4.2: RSI(N) is the average of gains over average of
losses across the window, scaled to 0-100, not-a-number on the
zero-division of a flat window, and undefined at positions with
insufficient history. -/
def specRSI (close : List Cell) (N : Nat) : List Cell :=
  (List.range close.length).map (fun i =>
    if i < N then none
    else
      match (List.range N).mapM (fun t => do
          let a ← (close.get? (i - t)).join
          let b ← (close.get? (i - t - 1)).join
          pure (a - b)) with
      | none => none
      | some diffs =>
        if (diffs.map (fun x => max x 0)).sum +
            (diffs.map (fun x => max (-x) 0)).sum = 0 then none
        else
          some (100 * (diffs.map (fun x => max x 0)).sum /
            ((diffs.map (fun x => max x 0)).sum +
              (diffs.map (fun x => max (-x) 0)).sum)))

/-! Structural lemmas for the assembler. -/

theorem exc_bind_eq_ok {α β : Type} {m : Except PyErr α} {f : α → Except PyErr β}
    {b : β} (h : (m >>= f) = .ok b) : ∃ a, m = .ok a ∧ f a = .ok b := by
  cases m with
  | ok a => exact ⟨a, rfl, h⟩
  | error e =>
    rw [exc_bind_err] at h
    exact Except.noConfusion h

theorem setCol_ok_fields {df : DataFrame} {name : String} {l : List Cell}
    {df2 : DataFrame} (h : setCol df name l = .ok df2) :
    df2.nrows = df.nrows ∧ df2.index = df.index ∧
      df2.cols = setPairs df.cols name l := by
  unfold setCol at h
  split at h
  · injection h with h2
    rw [← h2]
    exact ⟨rfl, rfl, rfl⟩
  · exact Except.noConfusion h

theorem beq_comm_false {a b : String} (h : (a == b) = false) : (b == a) = false := by
  rw [beq_eq_false_iff_ne] at h ⊢
  exact fun he => h he.symm

theorem lookup_map_replace {ps : List (String × List Cell)} {name : String}
    {l : List Cell} (hany : ps.any (fun p => p.1 == name) = true) :
    (ps.map (fun p => if p.1 == name then (name, l) else p)).lookup name =
      some l := by
  induction ps with
  | nil => simp at hany
  | cons p ps ih =>
    simp only [List.any_cons, Bool.or_eq_true] at hany
    rw [List.map_cons]
    by_cases hp : (p.1 == name) = true
    · rw [if_pos hp]
      simp [List.lookup]
    · rw [if_neg hp]
      have hf : (name == p.1) = false := beq_comm_false (Bool.eq_false_iff.mpr hp)
      simp only [List.lookup, hf]
      exact ih (hany.resolve_left hp)

theorem lookup_append_self {ps : List (String × List Cell)} {name : String}
    {l : List Cell} (hany : ps.any (fun p => p.1 == name) = false) :
    (ps ++ [(name, l)]).lookup name = some l := by
  induction ps with
  | nil => simp [List.lookup]
  | cons p ps ih =>
    simp only [List.any_cons, Bool.or_eq_false_iff] at hany
    have hf : (name == p.1) = false := beq_comm_false hany.1
    simp only [List.cons_append, List.lookup, hf]
    exact ih hany.2

theorem lookup_setPairs_self (cols : List (String × List Cell)) (name : String)
    (l : List Cell) : (setPairs cols name l).lookup name = some l := by
  unfold setPairs
  split
  · next hany => exact lookup_map_replace hany
  · next hany => exact lookup_append_self (Bool.eq_false_iff.mpr hany)

theorem lookup_map_replace_ne {ps : List (String × List Cell)} {name c : String}
    {l : List Cell} (h : (c == name) = false) :
    (ps.map (fun p => if p.1 == name then (name, l) else p)).lookup c =
      ps.lookup c := by
  induction ps with
  | nil => simp
  | cons p ps ih =>
    rw [List.map_cons]
    by_cases hp : (p.1 == name) = true
    · have hp' : p.1 = name := by simpa using hp
      have hc1 : (c == p.1) = false := by rw [hp']; exact h
      rw [if_pos hp]
      simp only [List.lookup, h, hc1]
      exact ih
    · rw [if_neg hp]
      simp only [List.lookup]
      cases hc : c == p.1
      · exact ih
      · rfl

theorem lookup_append_ne {ps : List (String × List Cell)} {name c : String}
    {l : List Cell} (h : (c == name) = false) :
    (ps ++ [(name, l)]).lookup c = ps.lookup c := by
  induction ps with
  | nil => simp [List.lookup, h]
  | cons p ps ih =>
    simp only [List.cons_append, List.lookup]
    cases hc : c == p.1
    · exact ih
    · rfl

theorem lookup_setPairs_ne {cols : List (String × List Cell)} {name c : String}
    {l : List Cell} (h : (c == name) = false) :
    (setPairs cols name l).lookup c = cols.lookup c := by
  unfold setPairs
  split
  · exact lookup_map_replace_ne h
  · exact lookup_append_ne h

theorem applySetCols_preserves {as : List (String × List Cell)} :
    ∀ {df t : DataFrame}, applySetCols df as = .ok t →
      t.nrows = df.nrows ∧ t.index = df.index := by
  induction as with
  | nil =>
    intro df t h
    unfold applySetCols at h
    injection h with h2
    rw [h2]
    exact ⟨rfl, rfl⟩
  | cons p rest ih =>
    intro df t h
    obtain ⟨name, l⟩ := p
    unfold applySetCols at h
    obtain ⟨df2, h1, h2⟩ := exc_bind_eq_ok h
    obtain ⟨ha, hb, -⟩ := setCol_ok_fields h1
    obtain ⟨hc, hd⟩ := ih h2
    exact ⟨by rw [hc, ha], by rw [hd, hb]⟩

theorem lookup_setPairs_isSome {cols : List (String × List Cell)}
    {name c : String} {l : List Cell}
    (hs : (cols.lookup c).isSome = true) :
    ((setPairs cols name l).lookup c).isSome = true := by
  by_cases hc : (c == name) = true
  · have : c = name := by simpa using hc
    rw [this, lookup_setPairs_self]
    rfl
  · rw [lookup_setPairs_ne (by simpa using hc)]
    exact hs

theorem applySetCols_isSome_mono {as : List (String × List Cell)} :
    ∀ {df t : DataFrame} {name : String}, applySetCols df as = .ok t →
      (df.cols.lookup name).isSome = true →
      (t.cols.lookup name).isSome = true := by
  induction as with
  | nil =>
    intro df t name h hs
    unfold applySetCols at h
    injection h with h2
    rw [← h2]
    exact hs
  | cons p rest ih =>
    intro df t name h hs
    obtain ⟨nm, l⟩ := p
    unfold applySetCols at h
    obtain ⟨df2, h1, h2⟩ := exc_bind_eq_ok h
    refine ih h2 ?_
    rw [(setCol_ok_fields h1).2.2]
    exact lookup_setPairs_isSome hs

theorem applySetCols_mem {as : List (String × List Cell)} :
    ∀ {df t : DataFrame} {name : String}, applySetCols df as = .ok t →
      name ∈ as.map Prod.fst → (t.cols.lookup name).isSome = true := by
  induction as with
  | nil =>
    intro df t name h hmem
    simp at hmem
  | cons p rest ih =>
    intro df t name h hmem
    obtain ⟨nm, l⟩ := p
    unfold applySetCols at h
    obtain ⟨df2, h1, h2⟩ := exc_bind_eq_ok h
    rcases List.mem_cons.mp hmem with he | hrest
    · refine applySetCols_isSome_mono h2 ?_
      rw [(setCol_ok_fields h1).2.2]
      have : name = nm := he
      rw [this, lookup_setPairs_self]
      rfl
    · exact ih h2 hrest

theorem applySetCols_lookup_not_mem {as : List (String × List Cell)} :
    ∀ {df t : DataFrame} {name : String}, applySetCols df as = .ok t →
      name ∉ as.map Prod.fst → t.cols.lookup name = df.cols.lookup name := by
  induction as with
  | nil =>
    intro df t name h _
    unfold applySetCols at h
    injection h with h2
    rw [← h2]
  | cons p rest ih =>
    intro df t name h hmem
    obtain ⟨nm, l⟩ := p
    unfold applySetCols at h
    obtain ⟨df2, h1, h2⟩ := exc_bind_eq_ok h
    have hne : name ≠ nm ∧ name ∉ rest.map Prod.fst := by
      constructor
      · intro he
        exact hmem (by rw [he]; exact List.mem_cons_self _ _)
      · intro he
        exact hmem (List.mem_cons_of_mem _ he)
    rw [ih h2 hne.2, (setCol_ok_fields h1).2.2,
      lookup_setPairs_ne (beq_eq_false_iff_ne.mpr hne.1)]

theorem applySetCols_lookup_nodup {as : List (String × List Cell)} :
    ∀ {df t : DataFrame} {name : String} {l : List Cell},
      applySetCols df as = .ok t → as.lookup name = some l →
      (as.map Prod.fst).Nodup → t.cols.lookup name = some l := by
  induction as with
  | nil =>
    intro df t name l h hmem _
    simp [List.lookup] at hmem
  | cons p rest ih =>
    intro df t name l h hmem hnd
    obtain ⟨nm, v⟩ := p
    unfold applySetCols at h
    obtain ⟨df2, h1, h2⟩ := exc_bind_eq_ok h
    rw [List.map_cons, List.nodup_cons] at hnd
    by_cases he : (name == nm) = true
    · have hm : name = nm := by simpa using he
      rw [List.lookup, he] at hmem
      injection hmem with hv
      have hnot : name ∉ rest.map Prod.fst := by
        rw [hm]
        exact hnd.1
      rw [applySetCols_lookup_not_mem h2 hnot, (setCol_ok_fields h1).2.2, hm,
        lookup_setPairs_self, hv]
    · have hf : (name == nm) = false := Bool.eq_false_iff.mpr he
      simp only [List.lookup, hf] at hmem
      exact ih h2 hmem hnd.2

/-- Data extracted from a successful run of the indicator computations:
the assignment list covers exactly the 42 indicator columns in order,
and its RSI entry is the nan-replaced output of the library RSI call on
the close column. -/
theorem indicatorsOf_spec {lib : IndicatorLib} {df : DataFrame}
    {as : List (String × List Cell)} (h : indicatorsOf lib df = .ok as) :
    as.map Prod.fst = indicatorNames ∧
      ∃ close rsi0, colE df "close" = .ok close ∧ lib.RSI close 14 = .ok rsi0 ∧
        as.lookup "RSI" = some (nanToNum rsi0 50) := by
  unfold indicatorsOf at h
  obtain ⟨close, hc1, h⟩ := exc_bind_eq_ok h
  obtain ⟨open_price, hc2, h⟩ := exc_bind_eq_ok h
  obtain ⟨high, hc3, h⟩ := exc_bind_eq_ok h
  obtain ⟨low, hc4, h⟩ := exc_bind_eq_ok h
  obtain ⟨volume, hc5, h⟩ := exc_bind_eq_ok h
  obtain ⟨x1, hm1, h⟩ := exc_bind_eq_ok h
  obtain ⟨dif, dea, macd⟩ := x1
  obtain ⟨x2, hm2, h⟩ := exc_bind_eq_ok h
  obtain ⟨k, d, j⟩ := x2
  obtain ⟨x3, hm3, h⟩ := exc_bind_eq_ok h
  obtain ⟨upper, mid, lower⟩ := x3
  obtain ⟨rsi0, hm4, h⟩ := exc_bind_eq_ok h
  obtain ⟨x5, hm5, h⟩ := exc_bind_eq_ok h
  obtain ⟨psy, psyma⟩ := x5
  obtain ⟨x6, hm6, h⟩ := exc_bind_eq_ok h
  obtain ⟨wr, wr1⟩ := x6
  obtain ⟨x7, hm7, h⟩ := exc_bind_eq_ok h
  obtain ⟨bias1, bias2, bias3⟩ := x7
  obtain ⟨cci, hm8, h⟩ := exc_bind_eq_ok h
  obtain ⟨ma5, hm9, h⟩ := exc_bind_eq_ok h
  obtain ⟨ma10, hm10, h⟩ := exc_bind_eq_ok h
  obtain ⟨ma20, hm11, h⟩ := exc_bind_eq_ok h
  obtain ⟨ma60, hm12, h⟩ := exc_bind_eq_ok h
  obtain ⟨atr, hm13, h⟩ := exc_bind_eq_ok h
  obtain ⟨x14, hm14, h⟩ := exc_bind_eq_ok h
  obtain ⟨emv, maemv⟩ := x14
  obtain ⟨x15, hm15, h⟩ := exc_bind_eq_ok h
  obtain ⟨dpo, madpo⟩ := x15
  obtain ⟨x16, hm16, h⟩ := exc_bind_eq_ok h
  obtain ⟨trix, trma⟩ := x16
  obtain ⟨x17, hm17, h⟩ := exc_bind_eq_ok h
  obtain ⟨pdi, mdi, adx, adxr⟩ := x17
  obtain ⟨vr, hm18, h⟩ := exc_bind_eq_ok h
  obtain ⟨x19, hm19, h⟩ := exc_bind_eq_ok h
  obtain ⟨ar, br⟩ := x19
  obtain ⟨x20, hm20, h⟩ := exc_bind_eq_ok h
  obtain ⟨roc, maroc⟩ := x20
  obtain ⟨x21, hm21, h⟩ := exc_bind_eq_ok h
  obtain ⟨mtm, mtmma⟩ := x21
  obtain ⟨x22, hm22, h⟩ := exc_bind_eq_ok h
  obtain ⟨dif_dma, difma_dma⟩ := x22
  have has : [("MACD", macd), ("DIF", dif), ("DEA", dea), ("K", k), ("D", d),
      ("J", j), ("BOLL_UP", upper), ("BOLL_MID", mid), ("BOLL_LOW", lower),
      ("RSI", nanToNum rsi0 50), ("PSY", psy), ("PSYMA", psyma), ("WR", wr),
      ("WR1", wr1), ("BIAS1", bias1), ("BIAS2", bias2), ("BIAS3", bias3),
      ("CCI", cci), ("MA5", ma5), ("MA10", ma10), ("MA20", ma20),
      ("MA60", ma60), ("ATR", atr), ("EMV", emv), ("MAEMV", maemv),
      ("DPO", dpo), ("MADPO", madpo), ("TRIX", trix), ("TRMA", trma),
      ("PDI", pdi), ("MDI", mdi), ("ADX", adx), ("ADXR", adxr), ("VR", vr),
      ("AR", ar), ("BR", br), ("ROC", roc), ("MAROC", maroc), ("MTM", mtm),
      ("MTMMA", mtmma), ("DIF_DMA", dif_dma), ("DIFMA_DMA", difma_dma)] = as :=
    Except.ok.inj h
  rw [← has]
  exact ⟨rfl, close, rsi0, hc1, hm4, rfl⟩

/-- A produced table decomposes into a successful data lookup, a
successful indicator computation and a successful column-assignment
pass: no partial outcome is representable. -/
theorem calc_some_elim {lib : IndicatorLib} {data : List (String × DataFrame)}
    {code : String} {t : DataFrame}
    (h : calculate_indicators lib data code = some t) :
    ∃ df as, data.lookup code = some df ∧ indicatorsOf lib df = .ok as ∧
      applySetCols df as = .ok t := by
  unfold calculate_indicators at h
  cases hd : data.lookup code with
  | none =>
    rw [hd] at h
    exact Option.noConfusion h
  | some df =>
    rw [hd] at h
    dsimp only at h
    cases hi : indicatorsOf lib df with
    | error e =>
      rw [hi, exc_bind_err] at h
      exact Option.noConfusion h
    | ok as =>
      rw [hi, exc_bind_ok] at h
      cases ha : applySetCols df as with
      | error e =>
        rw [ha] at h
        exact Option.noConfusion h
      | ok t2 =>
        rw [ha] at h
        have : t2 = t := Option.some_inj.mp h
        exact ⟨df, as, rfl, hi, by rw [ha, this]⟩

/-- Every cell produced by the spec-modelled RSI is either undefined or a
value in [0, 100]. -/
theorem specRSI_range {close : List Cell} {N : Nat} {c : Cell}
    (hc : c ∈ specRSI close N) :
    c = none ∨ ∃ v, c = some v ∧ 0 ≤ v ∧ v ≤ 100 := by
  unfold specRSI at hc
  rcases List.mem_map.mp hc with ⟨i, -, hi⟩
  by_cases h1 : i < N
  · left
    rw [← hi, if_pos h1]
  · rw [← hi, if_neg h1]
    cases hm : (List.range N).mapM (fun t => do
        let a ← (close.get? (i - t)).join
        let b ← (close.get? (i - t - 1)).join
        pure (a - b)) with
    | none => left; rfl
    | some diffs =>
      dsimp only
      have hg : 0 ≤ (diffs.map (fun x => max x 0)).sum := by
        apply List.sum_nonneg
        intro x hx
        rcases List.mem_map.mp hx with ⟨y, -, hy⟩
        rw [← hy]
        exact le_max_right _ _
      have hl : 0 ≤ (diffs.map (fun x => max (-x) 0)).sum := by
        apply List.sum_nonneg
        intro x hx
        rcases List.mem_map.mp hx with ⟨y, -, hy⟩
        rw [← hy]
        exact le_max_right _ _
      by_cases h0 : (diffs.map (fun x => max x 0)).sum +
          (diffs.map (fun x => max (-x) 0)).sum = 0
      · left
        rw [if_pos h0]
      · right
        have hpos : 0 < (diffs.map (fun x => max x 0)).sum +
            (diffs.map (fun x => max (-x) 0)).sum :=
          lt_of_le_of_ne (by linarith) (Ne.symm h0)
        refine ⟨_, by rw [if_neg h0], ?_, ?_⟩
        · exact div_nonneg (by linarith) (le_of_lt hpos)
        · rw [div_le_iff₀ hpos]
          linarith

/-- nan_to_num with 50 keeps a [0, 100] column inside [0, 100] and leaves
no undefined cell. -/
theorem nanToNum_spec {l : List Cell} {c : Cell} (hmem : c ∈ nanToNum l 50)
    (hl : ∀ x ∈ l, x = none ∨ ∃ v, x = some v ∧ 0 ≤ v ∧ v ≤ 100) :
    ∃ v, c = some v ∧ 0 ≤ v ∧ v ≤ 100 := by
  rcases List.mem_map.mp hmem with ⟨x, hx, hxe⟩
  rcases hl x hx with h | ⟨v, hv, h0, h100⟩
  · subst h
    rw [← hxe]
    exact ⟨50, rfl, by norm_num, by norm_num⟩
  · subst hv
    rw [← hxe]
    exact ⟨v, rfl, h0, h100⟩

/-! Claim theorems for the Indicator Assembler and its caller. -/

/-- C6: the Indicator Assembler is atomic per instrument: a produced
table always covers all 42 indicator columns (never a partial table),
any failing indicator computation yields no table at all, the
instrument-level caller converts a missing table into a placeholder
report with a failure status and non-empty advice instead of raising,
and every batch entry is a function of its own instrument only, so
other instruments are unaffected. -/
theorem c6_assembler_atomic (lib : IndicatorLib) (data : List (String × DataFrame))
    (code : String) :
    (∀ t, calculate_indicators lib data code = some t →
      ∀ name ∈ indicatorNames, (t.cols.lookup name).isSome = true) ∧
    (∀ df e, data.lookup code = some df → indicatorsOf lib df = .error e →
      calculate_indicators lib data code = none) ∧
    (calculate_indicators lib data code = none →
      ∃ m, (generate_analysis_data lib data code).dataStatus = some m ∧
        (generate_analysis_data lib data code).advice ≠ []) ∧
    (∀ codes : List String, ∀ i : Nat,
      (processBatch lib data codes)[i]? = (codes[i]?).map
        (fun c => if (data.lookup c).isSome then
          some (generate_analysis_data lib data c) else none)) := by
  refine ⟨?_, ?_, ?_, ?_⟩
  · intro t h name hname
    obtain ⟨df, as, hd, hi, ha⟩ := calc_some_elim h
    have hnames := (indicatorsOf_spec hi).1
    refine applySetCols_mem ha ?_
    rw [hnames]
    exact hname
  · intro df e hd hi
    unfold calculate_indicators
    rw [hd]
    dsimp only
    rw [hi, exc_bind_err]
    rfl
  · intro h
    unfold generate_analysis_data
    cases hd : data.lookup code with
    | none => exact ⟨"数据获取失败", rfl, by simp⟩
    | some df =>
      dsimp only
      by_cases hz : df.nrows = 0
      · rw [if_pos hz]
        exact ⟨"数据为空", rfl, by simp⟩
      · rw [if_neg hz, h]
        exact ⟨"技术指标计算失败", rfl, by simp⟩
  · intro codes i
    unfold processBatch
    rw [List.getElem?_map]

/-- C7: with the spec-modelled RSI in the library slot, every produced
augmented table has an RSI column with no undefined (NaN) cell: every
position is a value in [0, 100] (the neutral default 50 replacing any
undefined RSI result). -/
theorem c7_rsi_defined (lib : IndicatorLib) (data : List (String × DataFrame))
    (code : String) (t : DataFrame)
    (hR : lib.RSI = fun c n => .ok (specRSI c n))
    (h : calculate_indicators lib data code = some t) :
    ∀ c ∈ (t.cols.lookup "RSI").getD [], ∃ v, c = some v ∧ 0 ≤ v ∧ v ≤ 100 := by
  obtain ⟨df, as, hd, hi, ha⟩ := calc_some_elim h
  obtain ⟨hnames, close, rsi0, hclose, hrsi, hlook⟩ := indicatorsOf_spec hi
  rw [hR] at hrsi
  have hrsi0 : specRSI close 14 = rsi0 := Except.ok.inj hrsi
  have hnd : (as.map Prod.fst).Nodup := by
    rw [hnames]
    decide
  have hfinal : t.cols.lookup "RSI" = some (nanToNum rsi0 50) :=
    applySetCols_lookup_nodup ha hlook hnd
  rw [hfinal]
  intro c hc
  refine nanToNum_spec (by simpa using hc) ?_
  intro x hx
  rw [← hrsi0] at hx
  exact specRSI_range hx

/-- C8: every table the assembler accepts and augments has exactly the
input's row count and index, and every added indicator column is present
with length equal to the input's row count (undefined positions are NaN
cells of the full-length column, never a shortened column). -/
theorem c8_table_shape (lib : IndicatorLib) (data : List (String × DataFrame))
    (code : String) (df t : DataFrame)
    (hd : data.lookup code = some df)
    (h : calculate_indicators lib data code = some t) :
    t.nrows = df.nrows ∧ t.index = df.index ∧
      ∀ name ∈ indicatorNames, ∃ l, t.cols.lookup name = some l ∧
        l.length = df.nrows := by
  obtain ⟨df2, as, hd2, hi, ha⟩ := calc_some_elim h
  rw [hd] at hd2
  have hdf : df2 = df := (Option.some_inj.mp hd2).symm
  subst hdf
  obtain ⟨hn, hx⟩ := applySetCols_preserves ha
  refine ⟨hn, hx, ?_⟩
  intro name hname
  have hs : (t.cols.lookup name).isSome = true := by
    refine applySetCols_mem ha ?_
    rw [(indicatorsOf_spec hi).1]
    exact hname
  obtain ⟨l, hl⟩ := Option.isSome_iff_exists.mp hs
  refine ⟨l, hl, ?_⟩
  rw [← hn]
  exact t.hlen _ (lookup_mem hl)

/-! Witness material for the assembler claims: simple length-preserving
libraries and two-row OHLCV frames. -/

/-- A constant column of the same length as the input. -/
def constCol (l : List Cell) : List Cell := l.map (fun _ => some 1)

/-- A trivially succeeding, length-preserving indicator library. -/
def constLib : IndicatorLib where
  MACD := fun c => .ok (constCol c, constCol c, constCol c)
  KDJ := fun c _ _ => .ok (constCol c, constCol c, constCol c)
  BOLL := fun c => .ok (constCol c, constCol c, constCol c)
  RSI := fun c _ => .ok (constCol c)
  PSY := fun c => .ok (constCol c, constCol c)
  WR := fun c _ _ => .ok (constCol c, constCol c)
  BIAS := fun c => .ok (constCol c, constCol c, constCol c)
  CCI := fun c _ _ => .ok (constCol c)
  MA := fun c _ => .ok (constCol c)
  ATR := fun c _ _ => .ok (constCol c)
  EMV := fun hi _ _ => .ok (constCol hi, constCol hi)
  DPO := fun c => .ok (constCol c, constCol c)
  TRIX := fun c => .ok (constCol c, constCol c)
  DMI := fun c _ _ => .ok (constCol c, constCol c, constCol c, constCol c)
  VR := fun c _ => .ok (constCol c)
  BRAR := fun o _ _ _ => .ok (constCol o, constCol o)
  ROC := fun c => .ok (constCol c, constCol c)
  MTM := fun c => .ok (constCol c, constCol c)
  DMA := fun c => .ok (constCol c, constCol c)

/-- constLib with a failing DMI computation. -/
def failLib : IndicatorLib :=
  { constLib with DMI := fun _ _ _ => .error (.valueError "DMI") }

/-- constLib with the spec-modelled RSI. -/
def rsiLib : IndicatorLib :=
  { constLib with RSI := fun c n => .ok (specRSI c n) }

/-- A two-row OHLCV frame for the C6 witness. -/
def dfw6 : DataFrame where
  nrows := 2
  index := [0, 1]
  cols := [("open", [some 10, some 10]), ("high", [some 11, some 11]),
    ("low", [some 9, some 9]), ("close", [some 10, some 10]),
    ("volume", [some 100, some 100])]
  hidx := by decide
  hlen := by decide

def dataW6 : List (String × DataFrame) := [("sh000001", dfw6)]

/-- A two-row OHLCV frame for the C7 witness. -/
def dfw7 : DataFrame where
  nrows := 2
  index := [0, 1]
  cols := [("open", [some 10, some 10]), ("high", [some 11, some 11]),
    ("low", [some 9, some 9]), ("close", [some 10, some 12]),
    ("volume", [some 100, some 100])]
  hidx := by decide
  hlen := by decide

def dataW7 : List (String × DataFrame) := [("sh600000", dfw7)]

/-- A two-row OHLCV frame for the C8 witness. -/
def dfw8 : DataFrame where
  nrows := 2
  index := [3, 4]
  cols := [("open", [some 10, some 10]), ("high", [some 11, some 11]),
    ("low", [some 9, some 9]), ("close", [some 10, some 11]),
    ("volume", [some 100, some 200])]
  hidx := by decide
  hlen := by decide

def dataW8 : List (String × DataFrame) := [("sz000001", dfw8)]

/-- Witness for C6: with a failing DMI computation, no table is produced
and the caller's report carries a failure status with non-empty
advice. -/
theorem c6_assembler_atomic_witness :
    calculate_indicators failLib dataW6 "sh000001" = none ∧
      ∃ m, (generate_analysis_data failLib dataW6 "sh000001").dataStatus = some m ∧
        (generate_analysis_data failLib dataW6 "sh000001").advice ≠ [] := by
  have hnone : calculate_indicators failLib dataW6 "sh000001" = none :=
    (c6_assembler_atomic failLib dataW6 "sh000001").2.1 dfw6 (.valueError "DMI")
      rfl rfl
  exact ⟨hnone, (c6_assembler_atomic failLib dataW6 "sh000001").2.2.1 hnone⟩

/-- Witness for C7: the concrete assembled table has an RSI column whose
cells are all defined values in [0, 100]. -/
theorem c7_rsi_defined_witness :
    ∃ t, calculate_indicators rsiLib dataW7 "sh600000" = some t ∧
      ∀ c ∈ (t.cols.lookup "RSI").getD [], ∃ v, c = some v ∧ 0 ≤ v ∧ v ≤ 100 := by
  have hs : (calculate_indicators rsiLib dataW7 "sh600000").isSome = true := by
    decide
  cases hcalc : calculate_indicators rsiLib dataW7 "sh600000" with
  | none => rw [hcalc] at hs; exact Bool.noConfusion hs
  | some t =>
    exact ⟨t, rfl, c7_rsi_defined rsiLib dataW7 "sh600000" t rfl hcalc⟩

/-- Witness for C8 at a concrete two-row series. -/
theorem c8_table_shape_witness :
    ∃ t, calculate_indicators constLib dataW8 "sz000001" = some t ∧
      t.nrows = dfw8.nrows ∧ t.index = dfw8.index ∧
      ∀ name ∈ indicatorNames, ∃ l, t.cols.lookup name = some l ∧
        l.length = dfw8.nrows := by
  have hs : (calculate_indicators constLib dataW8 "sz000001").isSome = true := by
    decide
  cases hcalc : calculate_indicators constLib dataW8 "sz000001" with
  | none => rw [hcalc] at hs; exact Bool.noConfusion hs
  | some t =>
    obtain ⟨h1, h2, h3⟩ :=
      c8_table_shape constLib dataW8 "sz000001" dfw8 t rfl hcalc
    exact ⟨t, rfl, h1, h2, h3⟩
